import Mathlib

/-!
# Verification of the elspeth sidecar daemon core

Shallow embedding of the Rust sources under `sidecar/src/` (grants.rs,
frames.rs, crypto.rs, protocol.rs, config.rs, server.rs) together with
theorems settling the specification claims about them.

Modelling conventions:
* Machine bytes are `Nat`; byte strings (`[u8; N]`, `Vec<u8>`) are `List Nat`.
* `std::time::Instant` and `SystemTime` are abstract `Nat` timestamps passed
  explicitly to each operation (the Rust code samples `Instant::now()` at the
  corresponding point).
* `DashMap` is modelled as an association list with map semantics
  (`insertA` replaces, `eraseA` removes, `lookupA` queries).
* External cryptographic and codec primitives (BLAKE2s MAC from the `blake2`
  crate, HMAC verification from `ring`, CBOR from `serde_cbor`/`ciborium`)
  are parameters of the embedding: the repository treats them as assumed
  primitives, and no claim depends on their internals.
* The CSPRNG draws (`SystemRandom::fill`) are explicit arguments at the call
  sites that draw them.
-/

namespace Elspeth

/-- Byte strings (`Vec<u8>`, `[u8; N]`). -/
abbrev Bytes := List Nat

/-! ## Association-list map operations (model of `dashmap::DashMap`) -/

/-- Lookup in an association list (model of `DashMap::get`/`contains_key`). -/
def lookupA {α : Type} (k : Bytes) : List (Bytes × α) → Option α
  | [] => none
  | (k', v) :: rest => if k' = k then some v else lookupA k rest

/-- Remove every binding of a key (model of `DashMap::remove`). -/
def eraseA {α : Type} (k : Bytes) : List (Bytes × α) → List (Bytes × α)
  | [] => []
  | (k', v) :: rest => if k' = k then eraseA k rest else (k', v) :: eraseA k rest

/-- Insert, replacing any previous binding (model of `DashMap::insert`). -/
def insertA {α : Type} (k : Bytes) (v : α) (l : List (Bytes × α)) : List (Bytes × α) :=
  (k, v) :: eraseA k l

theorem lookupA_insertA_self {α : Type} (k : Bytes) (v : α) (l : List (Bytes × α)) :
    lookupA k (insertA k v l) = some v := by
  simp [insertA, lookupA]

theorem lookupA_eraseA_self {α : Type} (k : Bytes) (l : List (Bytes × α)) :
    lookupA k (eraseA k l) = none := by
  induction l with
  | nil => simp [eraseA, lookupA]
  | cons hd tl ih =>
      obtain ⟨k', v⟩ := hd
      by_cases h : k' = k
      · simpa [eraseA, h] using ih
      · simp [eraseA, lookupA, h, ih]

theorem lookupA_eraseA_ne {α : Type} {k k' : Bytes} (h : k ≠ k') (l : List (Bytes × α)) :
    lookupA k (eraseA k' l) = lookupA k l := by
  induction l with
  | nil => rfl
  | cons hd tl ih =>
      obtain ⟨k'', v⟩ := hd
      by_cases hk : k'' = k'
      · subst hk
        simp [eraseA, lookupA, Ne.symm h, ih]
      · simp [eraseA, lookupA, hk, ih]

theorem lookupA_insertA_ne {α : Type} {k k' : Bytes} (h : k ≠ k') (v : α)
    (l : List (Bytes × α)) : lookupA k (insertA k' v l) = lookupA k l := by
  simp [insertA, lookupA, Ne.symm h, lookupA_eraseA_ne h]

theorem lookupA_eraseA_none {α : Type} {k : Bytes} (k' : Bytes) {l : List (Bytes × α)}
    (h : lookupA k l = none) : lookupA k (eraseA k' l) = none := by
  by_cases hk : k = k'
  · subst hk; exact lookupA_eraseA_self k l
  · rw [lookupA_eraseA_ne hk]; exact h

theorem lookupA_filter_none {α : Type} {k : Bytes} {l : List (Bytes × α)}
    (p : Bytes × α → Bool) (h : lookupA k l = none) :
    lookupA k (l.filter p) = none := by
  induction l with
  | nil => simp [lookupA]
  | cons hd tl ih =>
      obtain ⟨k', v⟩ := hd
      by_cases hk : k' = k
      · simp [lookupA, hk] at h
      · simp only [lookupA, hk, if_false] at h
        by_cases hp : p (k', v)
        · simp [List.filter, hp, lookupA, hk, ih h]
        · simp [List.filter, hp, ih h]

/-- `Except.is_ok` style discriminator. -/
def isOkE {ε α : Type} : Except ε α → Bool
  | .ok _ => true
  | .error _ => false

instance {ε α : Type} [DecidableEq ε] [DecidableEq α] : DecidableEq (Except ε α)
  | .ok a, .ok b =>
      if h : a = b then .isTrue (by rw [h]) else .isFalse (by intro hc; cases hc; exact h rfl)
  | .ok _, .error _ => .isFalse (by intro hc; cases hc)
  | .error _, .ok _ => .isFalse (by intro hc; cases hc)
  | .error e, .error e' =>
      if h : e = e' then .isTrue (by rw [h]) else .isFalse (by intro hc; cases hc; exact h rfl)

/-! ## grants.rs: `GrantRequest`, `Grant`, `GrantTable` -/

/-- grants.rs `GrantRequest` (frame_id is the 16-byte UUID). -/
structure GrantRequest where
  frame_id : Bytes
  level : Nat
  data_digest : Bytes
deriving DecidableEq, Repr

/-- grants.rs `Grant` (stored in the table until redeemed or expired). -/
structure Grant where
  request : GrantRequest
  construction_ticket : Bytes
  expires_at : Nat
deriving DecidableEq, Repr

/-- grants.rs `GrantTable` (the `DashMap<[u8;16], Grant>` plus the TTL). -/
structure GrantTable where
  grants : List (Bytes × Grant)
  ttl : Nat
deriving DecidableEq, Repr

/-- Error string returned by `GrantTable::redeem` on an absent grant. -/
def grantNotFoundMsg : String := "Grant not found or already redeemed"

/-- Error string returned by `GrantTable::redeem` on an expired grant. -/
def grantExpiredMsg : String := "Grant expired"

/-- grants.rs `GrantTable::authorize`.  The two CSPRNG draws (`grant_id`,
`construction_ticket`) and `Instant::now()` are explicit arguments. -/
def GrantTable.authorize (t : GrantTable) (grant_id construction_ticket : Bytes)
    (request : GrantRequest) (now : Nat) : GrantTable × Bytes :=
  let grant : Grant :=
    { request := request, construction_ticket := construction_ticket,
      expires_at := now + t.ttl }
  ({ t with grants := insertA grant_id grant t.grants }, grant_id)

/-- grants.rs `GrantTable::redeem`: remove the entry first (`DashMap::remove`),
then check expiry — so even an `Expired` failure has removed the grant. -/
def GrantTable.redeem (t : GrantTable) (grant_id : Bytes) (now : Nat) :
    Except String (GrantRequest × Bytes) × GrantTable :=
  match lookupA grant_id t.grants with
  | none => (.error grantNotFoundMsg, t)
  | some grant =>
      let t' := { t with grants := eraseA grant_id t.grants }
      if now > grant.expires_at then (.error grantExpiredMsg, t')
      else (.ok (grant.request, grant.construction_ticket), t')

/-- grants.rs `GrantTable::cleanup_expired` (`retain (expires_at > now)`). -/
def GrantTable.cleanup_expired (t : GrantTable) (now : Nat) : GrantTable :=
  { t with grants := t.grants.filter (fun kv => decide (now < kv.2.expires_at)) }

/-! ### Traces of grant-table operations

The process lifetime is a sequence of table operations (issued by concurrent
connection handlers; `DashMap` linearizes them, so a linear trace is the
faithful model). -/

/-- One linearized operation on the grant table. -/
inductive GrantOp where
  | authorize (grant_id construction_ticket : Bytes) (request : GrantRequest) (now : Nat)
  | redeem (grant_id : Bytes) (now : Nat)
  | cleanup (now : Nat)
deriving DecidableEq, Repr

/-- Apply one operation to the table. -/
def GrantTable.step (t : GrantTable) : GrantOp → GrantTable
  | .authorize g tk req now => (t.authorize g tk req now).1
  | .redeem g now => (t.redeem g now).2
  | .cleanup now => t.cleanup_expired now

/-- Number of `authorize` operations in a trace that insert grant id `g`. -/
def grantAuthCount (g : Bytes) : List GrantOp → Nat
  | [] => 0
  | .authorize g' _ _ _ :: ops => (if g' = g then 1 else 0) + grantAuthCount g ops
  | _ :: ops => grantAuthCount g ops

/-- Number of `redeem g` operations in a trace that return `Ok`, running the
table from state `t`. -/
def grantRedeemOkCount (g : Bytes) (t : GrantTable) : List GrantOp → Nat
  | [] => 0
  | op :: ops =>
      (match op with
       | .redeem g' now =>
           if g' = g then (if isOkE (t.redeem g' now).1 then 1 else 0) else 0
       | _ => 0) + grantRedeemOkCount g (t.step op) ops

/-- Number of `redeem g` operations in a trace. -/
def grantRedeemCount (g : Bytes) : List GrantOp → Nat
  | [] => 0
  | .redeem g' _ :: ops => (if g' = g then 1 else 0) + grantRedeemCount g ops
  | _ :: ops => grantRedeemCount g ops

/-- Number of `redeem g` operations in a trace that return the not-found
error, running the table from state `t`. -/
def grantRedeemNotFoundCount (g : Bytes) (t : GrantTable) : List GrantOp → Nat
  | [] => 0
  | op :: ops =>
      (match op with
       | .redeem g' now =>
           if g' = g then
             (if (t.redeem g' now).1 = .error grantNotFoundMsg then 1 else 0)
           else 0
       | _ => 0) + grantRedeemNotFoundCount g (t.step op) ops

/-- Does the operation insert grant id `g`? -/
def GrantOp.authorizesId : GrantOp → Bytes → Bool
  | .authorize g' _ _ _, g => g' = g
  | _, _ => false

/-- `redeem` always leaves the redeemed id absent: the `DashMap::remove`
happens before the expiry check. -/
theorem GrantTable.redeem_removes (t : GrantTable) (g : Bytes) (now : Nat) :
    lookupA g ((t.redeem g now).2).grants = none := by
  simp only [GrantTable.redeem]
  cases hl : lookupA g t.grants with
  | none => simpa using hl
  | some grant =>
      by_cases hexp : now > grant.expires_at
      · simp [hexp, lookupA_eraseA_self]
      · simp [hexp, lookupA_eraseA_self]

/-- A step that does not authorize `g` keeps `g` absent from the table. -/
theorem GrantTable.step_preserves_absent_grant (t : GrantTable) (op : GrantOp) (g : Bytes)
    (habs : lookupA g t.grants = none) (hop : op.authorizesId g = false) :
    lookupA g (t.step op).grants = none := by
  cases op with
  | authorize g' tk req now =>
      have hne : g ≠ g' := by
        intro h
        subst h
        simp [GrantOp.authorizesId] at hop
      simpa [GrantTable.step, GrantTable.authorize] using
        (lookupA_insertA_ne hne _ t.grants).trans habs
  | redeem g' now =>
      simp only [GrantTable.step, GrantTable.redeem]
      cases hl : lookupA g' t.grants with
      | none => simpa using habs
      | some grant =>
          by_cases hexp : now > grant.expires_at
          · simp [hexp, lookupA_eraseA_none g' habs]
          · simp [hexp, lookupA_eraseA_none g' habs]
  | cleanup now =>
      simpa [GrantTable.step, GrantTable.cleanup_expired] using
        lookupA_filter_none _ habs

/-- If `g` is absent and the trace never authorizes it, no redeem of `g`
succeeds. -/
theorem grantRedeemOkCount_eq_zero (g : Bytes) (t : GrantTable) (ops : List GrantOp)
    (habs : lookupA g t.grants = none) (hauth : grantAuthCount g ops = 0) :
    grantRedeemOkCount g t ops = 0 := by
  induction ops generalizing t with
  | nil => rfl
  | cons op ops ih =>
      cases op with
      | authorize g' tk req now =>
          have hg : g' ≠ g := by
            intro h
            subst h
            simp [grantAuthCount] at hauth
          have hauth' : grantAuthCount g ops = 0 := by
            simpa [grantAuthCount, hg] using hauth
          have habs' := GrantTable.step_preserves_absent_grant t (.authorize g' tk req now) g habs
            (by simp [GrantOp.authorizesId, hg])
          simpa [grantRedeemOkCount] using ih _ habs' hauth'
      | redeem g' now =>
          have hauth' : grantAuthCount g ops = 0 := by
            simpa [grantAuthCount] using hauth
          have habs' := GrantTable.step_preserves_absent_grant t (.redeem g' now) g habs
            (by simp [GrantOp.authorizesId])
          have hrest := ih _ habs' hauth'
          by_cases hgg : g' = g
          · subst hgg
            have herr : (t.redeem g' now).1 = .error grantNotFoundMsg := by
              simp [GrantTable.redeem, habs]
            simpa [grantRedeemOkCount, herr, isOkE, GrantTable.step] using hrest
          · simpa [grantRedeemOkCount, hgg, GrantTable.step] using hrest
      | cleanup now =>
          have hauth' : grantAuthCount g ops = 0 := by
            simpa [grantAuthCount] using hauth
          have habs' := GrantTable.step_preserves_absent_grant t (.cleanup now) g habs
            (by simp [GrantOp.authorizesId])
          simpa [grantRedeemOkCount] using ih _ habs' hauth'

/-- If the trace never authorizes `g`, at most one redeem of `g` succeeds
(from any starting table). -/
theorem grantRedeemOkCount_le_one (g : Bytes) (t : GrantTable) (ops : List GrantOp)
    (hauth : grantAuthCount g ops = 0) :
    grantRedeemOkCount g t ops ≤ 1 := by
  induction ops generalizing t with
  | nil => simp [grantRedeemOkCount]
  | cons op ops ih =>
      cases op with
      | authorize g' tk req now =>
          have hg : g' ≠ g := by
            intro h
            subst h
            simp [grantAuthCount] at hauth
          have hauth' : grantAuthCount g ops = 0 := by
            simpa [grantAuthCount, hg] using hauth
          simpa [grantRedeemOkCount] using ih _ hauth'
      | redeem g' now =>
          have hauth' : grantAuthCount g ops = 0 := by
            simpa [grantAuthCount] using hauth
          by_cases hgg : g' = g
          · subst hgg
            by_cases hok : isOkE (t.redeem g' now).1 = true
            · have habs' := GrantTable.redeem_removes t g' now
              have h0 := grantRedeemOkCount_eq_zero g' _ ops habs' hauth'
              simp [grantRedeemOkCount, hok, GrantTable.step, h0]
            · have hok' : isOkE (t.redeem g' now).1 = false := by
                simpa using hok
              simpa [grantRedeemOkCount, hok', GrantTable.step] using ih _ hauth'
          · simpa [grantRedeemOkCount, hgg, GrantTable.step] using ih _ hauth'
      | cleanup now =>
          have hauth' : grantAuthCount g ops = 0 := by
            simpa [grantAuthCount] using hauth
          simpa [grantRedeemOkCount] using ih _ hauth'

/-- Starting from a table without `g`, a trace that authorizes `g` at most
once sees at most one successful redeem of `g`. -/
theorem grantRedeemOk_atMostOne (g : Bytes) (t : GrantTable) (ops : List GrantOp)
    (habs : lookupA g t.grants = none) (hauth : grantAuthCount g ops ≤ 1) :
    grantRedeemOkCount g t ops ≤ 1 := by
  induction ops generalizing t with
  | nil => simp [grantRedeemOkCount]
  | cons op ops ih =>
      cases op with
      | authorize g' tk req now =>
          by_cases hgg : g' = g
          · subst hgg
            have hauth' : grantAuthCount g' ops = 0 := by
              simp [grantAuthCount] at hauth
              omega
            simpa [grantRedeemOkCount] using
              grantRedeemOkCount_le_one g' _ ops hauth'
          · have hauth' : grantAuthCount g ops ≤ 1 := by
              simpa [grantAuthCount, hgg] using hauth
            have habs' := GrantTable.step_preserves_absent_grant t (.authorize g' tk req now) g habs
              (by simp [GrantOp.authorizesId, hgg])
            simpa [grantRedeemOkCount] using ih _ habs' hauth'
      | redeem g' now =>
          have hauth' : grantAuthCount g ops ≤ 1 := by
            simpa [grantAuthCount] using hauth
          have habs' := GrantTable.step_preserves_absent_grant t (.redeem g' now) g habs
            (by simp [GrantOp.authorizesId])
          by_cases hgg : g' = g
          · subst hgg
            have herr : (t.redeem g' now).1 = .error grantNotFoundMsg := by
              simp [GrantTable.redeem, habs]
            simpa [grantRedeemOkCount, herr, isOkE, GrantTable.step] using ih _ habs' hauth'
          · simpa [grantRedeemOkCount, hgg, GrantTable.step] using ih _ habs' hauth'
      | cleanup now =>
          have hauth' : grantAuthCount g ops ≤ 1 := by
            simpa [grantAuthCount] using hauth
          have habs' := GrantTable.step_preserves_absent_grant t (.cleanup now) g habs
            (by simp [GrantOp.authorizesId])
          simpa [grantRedeemOkCount] using ih _ habs' hauth'

/-- If `g` is absent and never (re)authorized, every redeem of `g` in the
trace fails with the not-found error. -/
theorem grantRedeemNotFound_all (g : Bytes) (t : GrantTable) (ops : List GrantOp)
    (habs : lookupA g t.grants = none) (hauth : grantAuthCount g ops = 0) :
    grantRedeemNotFoundCount g t ops = grantRedeemCount g ops := by
  induction ops generalizing t with
  | nil => rfl
  | cons op ops ih =>
      cases op with
      | authorize g' tk req now =>
          have hg : g' ≠ g := by
            intro h
            subst h
            simp [grantAuthCount] at hauth
          have hauth' : grantAuthCount g ops = 0 := by
            simpa [grantAuthCount, hg] using hauth
          have habs' := GrantTable.step_preserves_absent_grant t (.authorize g' tk req now) g habs
            (by simp [GrantOp.authorizesId, hg])
          simpa [grantRedeemNotFoundCount, grantRedeemCount] using ih _ habs' hauth'
      | redeem g' now =>
          have hauth' : grantAuthCount g ops = 0 := by
            simpa [grantAuthCount] using hauth
          have habs' := GrantTable.step_preserves_absent_grant t (.redeem g' now) g habs
            (by simp [GrantOp.authorizesId])
          by_cases hgg : g' = g
          · subst hgg
            have herr : (t.redeem g' now).1 = .error grantNotFoundMsg := by
              simp [GrantTable.redeem, habs]
            simpa [grantRedeemNotFoundCount, grantRedeemCount, herr, GrantTable.step] using
              ih _ habs' hauth'
          · simpa [grantRedeemNotFoundCount, grantRedeemCount, hgg, GrantTable.step] using
              ih _ habs' hauth'
      | cleanup now =>
          have hauth' : grantAuthCount g ops = 0 := by
            simpa [grantAuthCount] using hauth
          have habs' := GrantTable.step_preserves_absent_grant t (.cleanup now) g habs
            (by simp [GrantOp.authorizesId])
          simpa [grantRedeemNotFoundCount, grantRedeemCount] using ih _ habs' hauth'

/-- C2: for every `grant_id`, at most one `redeem(grant_id)` returns `Ok`
over the process lifetime (the table starts without the id and the random id
is drawn by at most one `authorize`); `redeem` on an absent id fails with the
single not-found error, which does not distinguish "never existed" from
"already redeemed", and leaves the table unchanged; the removal precedes the
expiry check, so after any `redeem` of `g` — including one that fails
`Expired` — the id is absent, and every later redeem of `g` (absent further
authorizations of it) fails with the not-found error. -/
theorem C2_grant_redeem_one_shot :
    (∀ (t : GrantTable) (g : Bytes) (ops : List GrantOp),
        lookupA g t.grants = none → grantAuthCount g ops ≤ 1 →
        grantRedeemOkCount g t ops ≤ 1) ∧
    (∀ (t : GrantTable) (g : Bytes) (now : Nat),
        lookupA g t.grants = none →
        (t.redeem g now).1 = .error grantNotFoundMsg ∧ (t.redeem g now).2 = t) ∧
    (∀ (t : GrantTable) (g : Bytes) (now : Nat),
        lookupA g ((t.redeem g now).2).grants = none) ∧
    (∀ (t : GrantTable) (g : Bytes) (ops : List GrantOp),
        lookupA g t.grants = none → grantAuthCount g ops = 0 →
        grantRedeemNotFoundCount g t ops = grantRedeemCount g ops) := by
  refine ⟨fun t g ops => grantRedeemOk_atMostOne g t ops, ?_,
    GrantTable.redeem_removes, fun t g ops => grantRedeemNotFound_all g t ops⟩
  intro t g now habs
  constructor
  · simp [GrantTable.redeem, habs]
  · simp [GrantTable.redeem, habs]

/-- Witness for C2 at a concrete trace: authorize once, redeem twice. -/
theorem C2_grant_redeem_one_shot_witness :
    grantRedeemOkCount [1] { grants := [], ttl := 60 }
      [.authorize [1] [2] { frame_id := [3], level := 4, data_digest := [5] } 0,
       .redeem [1] 10, .redeem [1] 20] ≤ 1 ∧
    (GrantTable.redeem { grants := [], ttl := 60 } [9] 0).1 =
      .error grantNotFoundMsg ∧
    lookupA [7] ((GrantTable.redeem
      { grants := [([7], { request := { frame_id := [3], level := 4, data_digest := [5] },
                           construction_ticket := [2], expires_at := 60 })], ttl := 60 }
      [7] 99).2).grants = none ∧
    grantRedeemNotFoundCount [1] { grants := [], ttl := 60 }
      [.redeem [1] 0, .redeem [1] 5] =
      grantRedeemCount [1] [.redeem [1] 0, .redeem [1] 5] := by
  refine ⟨?_, ?_, ?_, ?_⟩
  · exact C2_grant_redeem_one_shot.1 { grants := [], ttl := 60 } [1] _
      (by decide) (by decide)
  · exact (C2_grant_redeem_one_shot.2.1 { grants := [], ttl := 60 } [9] 0 (by decide)).1
  · exact C2_grant_redeem_one_shot.2.2.1 _ [7] 99
  · exact C2_grant_redeem_one_shot.2.2.2 { grants := [], ttl := 60 } [1] _
      (by decide) (by decide)

/-! ## grants.rs: `ConstructionTicketTable` -/

/-- grants.rs `ConstructionTicketTable`: issued and consumed sets, each
mapping the 32-byte ticket to its `expires_at`. -/
structure ConstructionTicketTable where
  issued_tickets : List (Bytes × Nat)
  consumed_tickets : List (Bytes × Nat)
  ttl : Nat
deriving DecidableEq, Repr

/-- Error string for a ticket that is not in the issued set. -/
def ticketNeverIssuedMsg : String :=
  "Construction ticket not found (never issued or expired)"

/-- Error string for a ticket already present in the consumed set. -/
def ticketAlreadyConsumedMsg : String := "Construction ticket already consumed"

/-- grants.rs `ConstructionTicketTable::issue`. -/
def ConstructionTicketTable.issue (t : ConstructionTicketTable) (ticket : Bytes)
    (now : Nat) : ConstructionTicketTable :=
  { t with issued_tickets := insertA ticket (now + t.ttl) t.issued_tickets }

/-- grants.rs `ConstructionTicketTable::consume`: ordered checks — issued-set
membership first, then consumed-set membership — then the atomic move. -/
def ConstructionTicketTable.consume (t : ConstructionTicketTable) (ticket : Bytes)
    (now : Nat) : Except String Unit × ConstructionTicketTable :=
  if (lookupA ticket t.issued_tickets).isNone then
    (.error ticketNeverIssuedMsg, t)
  else if (lookupA ticket t.consumed_tickets).isSome then
    (.error ticketAlreadyConsumedMsg, t)
  else
    (.ok (),
      { t with
        consumed_tickets := insertA ticket (now + t.ttl) t.consumed_tickets,
        issued_tickets := eraseA ticket t.issued_tickets })

/-- grants.rs `ConstructionTicketTable::cleanup_expired`. -/
def ConstructionTicketTable.cleanup_expired (t : ConstructionTicketTable)
    (now : Nat) : ConstructionTicketTable :=
  { t with
    issued_tickets := t.issued_tickets.filter (fun kv => decide (now < kv.2)),
    consumed_tickets := t.consumed_tickets.filter (fun kv => decide (now < kv.2)) }

/-- One linearized operation on the ticket table. -/
inductive TicketOp where
  | issue (ticket : Bytes) (now : Nat)
  | consume (ticket : Bytes) (now : Nat)
  | cleanup (now : Nat)
deriving DecidableEq, Repr

/-- Apply one operation to the ticket table. -/
def ConstructionTicketTable.step (t : ConstructionTicketTable) :
    TicketOp → ConstructionTicketTable
  | .issue tk now => t.issue tk now
  | .consume tk now => (t.consume tk now).2
  | .cleanup now => t.cleanup_expired now

/-- Number of `issue tk` operations in a trace. -/
def ticketIssueCount (tk : Bytes) : List TicketOp → Nat
  | [] => 0
  | .issue tk' _ :: ops => (if tk' = tk then 1 else 0) + ticketIssueCount tk ops
  | _ :: ops => ticketIssueCount tk ops

/-- Number of `consume tk` operations in a trace. -/
def ticketConsumeCount (tk : Bytes) : List TicketOp → Nat
  | [] => 0
  | .consume tk' _ :: ops => (if tk' = tk then 1 else 0) + ticketConsumeCount tk ops
  | _ :: ops => ticketConsumeCount tk ops

/-- Number of `consume tk` operations returning `Ok`, running from `t`. -/
def ticketConsumeOkCount (tk : Bytes) (t : ConstructionTicketTable) :
    List TicketOp → Nat
  | [] => 0
  | op :: ops =>
      (match op with
       | .consume tk' now =>
           if tk' = tk then (if isOkE (t.consume tk' now).1 then 1 else 0) else 0
       | _ => 0) + ticketConsumeOkCount tk (t.step op) ops

/-- Number of `consume tk` operations returning the never-issued error,
running from `t`. -/
def ticketConsumeNeverIssuedCount (tk : Bytes) (t : ConstructionTicketTable) :
    List TicketOp → Nat
  | [] => 0
  | op :: ops =>
      (match op with
       | .consume tk' now =>
           if tk' = tk then
             (if (t.consume tk' now).1 = .error ticketNeverIssuedMsg then 1 else 0)
           else 0
       | _ => 0) + ticketConsumeNeverIssuedCount tk (t.step op) ops

/-- Does the operation insert ticket `tk` into the issued set? -/
def TicketOp.issuesTicket : TicketOp → Bytes → Bool
  | .issue tk' _, tk => tk' = tk
  | _, _ => false

/-- A successful `consume` removes the ticket from the issued set. -/
theorem ConstructionTicketTable.consume_removes_issued
    (t : ConstructionTicketTable) (tk : Bytes) (now : Nat)
    (h : isOkE (t.consume tk now).1 = true) :
    lookupA tk ((t.consume tk now).2).issued_tickets = none := by
  by_cases h1 : (lookupA tk t.issued_tickets).isNone
  · simp [ConstructionTicketTable.consume, h1, isOkE] at h
  · by_cases h2 : (lookupA tk t.consumed_tickets).isSome
    · simp [ConstructionTicketTable.consume, h1, h2, isOkE] at h
    · simp [ConstructionTicketTable.consume, h1, h2, lookupA_eraseA_self]

/-- A step that does not issue `tk` keeps `tk` absent from the issued set. -/
theorem ConstructionTicketTable.step_preserves_absent_ticket (t : ConstructionTicketTable)
    (op : TicketOp) (tk : Bytes)
    (habs : lookupA tk t.issued_tickets = none) (hop : op.issuesTicket tk = false) :
    lookupA tk (t.step op).issued_tickets = none := by
  cases op with
  | issue tk' now =>
      have hne : tk ≠ tk' := by
        intro h
        subst h
        simp [TicketOp.issuesTicket] at hop
      simpa [ConstructionTicketTable.step, ConstructionTicketTable.issue] using
        (lookupA_insertA_ne hne _ t.issued_tickets).trans habs
  | consume tk' now =>
      simp only [ConstructionTicketTable.step, ConstructionTicketTable.consume]
      by_cases h1 : (lookupA tk' t.issued_tickets).isNone
      · simpa [h1] using habs
      · by_cases h2 : (lookupA tk' t.consumed_tickets).isSome
        · simpa [h1, h2] using habs
        · simp [h1, h2, lookupA_eraseA_none tk' habs]
  | cleanup now =>
      simpa [ConstructionTicketTable.step, ConstructionTicketTable.cleanup_expired] using
        lookupA_filter_none _ habs

/-- If `tk` is absent from the issued set and never issued by the trace,
every `consume tk` fails with the never-issued error. -/
theorem ticketConsumeNeverIssued_all (tk : Bytes) (t : ConstructionTicketTable)
    (ops : List TicketOp) (habs : lookupA tk t.issued_tickets = none)
    (hiss : ticketIssueCount tk ops = 0) :
    ticketConsumeNeverIssuedCount tk t ops = ticketConsumeCount tk ops := by
  induction ops generalizing t with
  | nil => rfl
  | cons op ops ih =>
      cases op with
      | issue tk' now =>
          have hne : tk' ≠ tk := by
            intro h
            subst h
            simp [ticketIssueCount] at hiss
          have hiss' : ticketIssueCount tk ops = 0 := by
            simpa [ticketIssueCount, hne] using hiss
          have habs' := ConstructionTicketTable.step_preserves_absent_ticket t (.issue tk' now) tk habs
            (by simp [TicketOp.issuesTicket, hne])
          simpa [ticketConsumeNeverIssuedCount, ticketConsumeCount] using ih _ habs' hiss'
      | consume tk' now =>
          have hiss' : ticketIssueCount tk ops = 0 := by
            simpa [ticketIssueCount] using hiss
          have habs' := ConstructionTicketTable.step_preserves_absent_ticket t (.consume tk' now) tk habs
            (by simp [TicketOp.issuesTicket])
          by_cases hgg : tk' = tk
          · subst hgg
            have herr : (t.consume tk' now).1 = .error ticketNeverIssuedMsg := by
              simp [ConstructionTicketTable.consume, habs]
            simpa [ticketConsumeNeverIssuedCount, ticketConsumeCount, herr,
              ConstructionTicketTable.step] using ih _ habs' hiss'
          · simpa [ticketConsumeNeverIssuedCount, ticketConsumeCount, hgg,
              ConstructionTicketTable.step] using ih _ habs' hiss'
      | cleanup now =>
          have hiss' : ticketIssueCount tk ops = 0 := by
            simpa [ticketIssueCount] using hiss
          have habs' := ConstructionTicketTable.step_preserves_absent_ticket t (.cleanup now) tk habs
            (by simp [TicketOp.issuesTicket])
          simpa [ticketConsumeNeverIssuedCount, ticketConsumeCount] using ih _ habs' hiss'

/-- If `tk` is absent from the issued set and never issued by the trace,
no `consume tk` succeeds. -/
theorem ticketConsumeOkCount_eq_zero (tk : Bytes) (t : ConstructionTicketTable)
    (ops : List TicketOp) (habs : lookupA tk t.issued_tickets = none)
    (hiss : ticketIssueCount tk ops = 0) :
    ticketConsumeOkCount tk t ops = 0 := by
  induction ops generalizing t with
  | nil => rfl
  | cons op ops ih =>
      cases op with
      | issue tk' now =>
          have hne : tk' ≠ tk := by
            intro h
            subst h
            simp [ticketIssueCount] at hiss
          have hiss' : ticketIssueCount tk ops = 0 := by
            simpa [ticketIssueCount, hne] using hiss
          have habs' := ConstructionTicketTable.step_preserves_absent_ticket t (.issue tk' now) tk habs
            (by simp [TicketOp.issuesTicket, hne])
          simpa [ticketConsumeOkCount] using ih _ habs' hiss'
      | consume tk' now =>
          have hiss' : ticketIssueCount tk ops = 0 := by
            simpa [ticketIssueCount] using hiss
          have habs' := ConstructionTicketTable.step_preserves_absent_ticket t (.consume tk' now) tk habs
            (by simp [TicketOp.issuesTicket])
          by_cases hgg : tk' = tk
          · subst hgg
            have herr : (t.consume tk' now).1 = .error ticketNeverIssuedMsg := by
              simp [ConstructionTicketTable.consume, habs]
            simpa [ticketConsumeOkCount, herr, isOkE,
              ConstructionTicketTable.step] using ih _ habs' hiss'
          · simpa [ticketConsumeOkCount, hgg,
              ConstructionTicketTable.step] using ih _ habs' hiss'
      | cleanup now =>
          have hiss' : ticketIssueCount tk ops = 0 := by
            simpa [ticketIssueCount] using hiss
          have habs' := ConstructionTicketTable.step_preserves_absent_ticket t (.cleanup now) tk habs
            (by simp [TicketOp.issuesTicket])
          simpa [ticketConsumeOkCount] using ih _ habs' hiss'

/-- If the trace never issues `tk`, at most one `consume tk` succeeds
(from any starting table). -/
theorem ticketConsumeOkCount_le_one (tk : Bytes) (t : ConstructionTicketTable)
    (ops : List TicketOp) (hiss : ticketIssueCount tk ops = 0) :
    ticketConsumeOkCount tk t ops ≤ 1 := by
  induction ops generalizing t with
  | nil => simp [ticketConsumeOkCount]
  | cons op ops ih =>
      cases op with
      | issue tk' now =>
          have hne : tk' ≠ tk := by
            intro h
            subst h
            simp [ticketIssueCount] at hiss
          have hiss' : ticketIssueCount tk ops = 0 := by
            simpa [ticketIssueCount, hne] using hiss
          simpa [ticketConsumeOkCount] using ih _ hiss'
      | consume tk' now =>
          have hiss' : ticketIssueCount tk ops = 0 := by
            simpa [ticketIssueCount] using hiss
          by_cases hgg : tk' = tk
          · subst hgg
            by_cases hok : isOkE (t.consume tk' now).1 = true
            · have habs' := ConstructionTicketTable.consume_removes_issued t tk' now hok
              have h0 := ticketConsumeOkCount_eq_zero tk' _ ops habs' hiss'
              simp [ticketConsumeOkCount, hok, ConstructionTicketTable.step, h0]
            · have hok' : isOkE (t.consume tk' now).1 = false := by
                simpa using hok
              simpa [ticketConsumeOkCount, hok',
                ConstructionTicketTable.step] using ih _ hiss'
          · simpa [ticketConsumeOkCount, hgg,
              ConstructionTicketTable.step] using ih _ hiss'
      | cleanup now =>
          have hiss' : ticketIssueCount tk ops = 0 := by
            simpa [ticketIssueCount] using hiss
          simpa [ticketConsumeOkCount] using ih _ hiss'

/-- Starting from a table whose issued set lacks `tk`, a trace that issues
`tk` at most once sees at most one successful `consume tk`. -/
theorem ticketConsumeOk_atMostOne (tk : Bytes) (t : ConstructionTicketTable)
    (ops : List TicketOp) (habs : lookupA tk t.issued_tickets = none)
    (hiss : ticketIssueCount tk ops ≤ 1) :
    ticketConsumeOkCount tk t ops ≤ 1 := by
  induction ops generalizing t with
  | nil => simp [ticketConsumeOkCount]
  | cons op ops ih =>
      cases op with
      | issue tk' now =>
          by_cases hgg : tk' = tk
          · subst hgg
            have hiss' : ticketIssueCount tk' ops = 0 := by
              simp [ticketIssueCount] at hiss
              omega
            simpa [ticketConsumeOkCount] using
              ticketConsumeOkCount_le_one tk' _ ops hiss'
          · have hiss' : ticketIssueCount tk ops ≤ 1 := by
              simpa [ticketIssueCount, hgg] using hiss
            have habs' := ConstructionTicketTable.step_preserves_absent_ticket t (.issue tk' now) tk habs
              (by simp [TicketOp.issuesTicket, hgg])
            simpa [ticketConsumeOkCount] using ih _ habs' hiss'
      | consume tk' now =>
          have hiss' : ticketIssueCount tk ops ≤ 1 := by
            simpa [ticketIssueCount] using hiss
          have habs' := ConstructionTicketTable.step_preserves_absent_ticket t (.consume tk' now) tk habs
            (by simp [TicketOp.issuesTicket])
          by_cases hgg : tk' = tk
          · subst hgg
            have herr : (t.consume tk' now).1 = .error ticketNeverIssuedMsg := by
              simp [ConstructionTicketTable.consume, habs]
            simpa [ticketConsumeOkCount, herr, isOkE,
              ConstructionTicketTable.step] using ih _ habs' hiss'
          · simpa [ticketConsumeOkCount, hgg,
              ConstructionTicketTable.step] using ih _ habs' hiss'
      | cleanup now =>
          have hiss' : ticketIssueCount tk ops ≤ 1 := by
            simpa [ticketIssueCount] using hiss
          have habs' := ConstructionTicketTable.step_preserves_absent_ticket t (.cleanup now) tk habs
            (by simp [TicketOp.issuesTicket])
          simpa [ticketConsumeOkCount] using ih _ habs' hiss'

/-- C4: for every 32-byte ticket value, at most one `consume(ticket)` returns
`Ok` over the process lifetime (the issued set starts without the ticket and
the random ticket is recorded by at most one `issue`), and `consume` of a
ticket that was never issued always fails with the never-issued error. -/
theorem C4_ticket_consume_one_shot :
    (∀ (t : ConstructionTicketTable) (tk : Bytes) (ops : List TicketOp),
        lookupA tk t.issued_tickets = none → ticketIssueCount tk ops ≤ 1 →
        ticketConsumeOkCount tk t ops ≤ 1) ∧
    (∀ (t : ConstructionTicketTable) (tk : Bytes) (ops : List TicketOp),
        lookupA tk t.issued_tickets = none → ticketIssueCount tk ops = 0 →
        ticketConsumeNeverIssuedCount tk t ops = ticketConsumeCount tk ops) :=
  ⟨fun t tk ops => ticketConsumeOk_atMostOne tk t ops,
   fun t tk ops => ticketConsumeNeverIssued_all tk t ops⟩

/-- Witness for C4 at a concrete trace: issue once, consume three times;
and a never-issued ticket consumed twice. -/
theorem C4_ticket_consume_one_shot_witness :
    ticketConsumeOkCount [5] { issued_tickets := [], consumed_tickets := [], ttl := 60 }
      [.issue [5] 0, .consume [5] 1, .consume [5] 2, .consume [5] 3] ≤ 1 ∧
    ticketConsumeNeverIssuedCount [14]
      { issued_tickets := [], consumed_tickets := [], ttl := 60 }
      [.consume [14] 0, .consume [14] 7] =
      ticketConsumeCount [14] [.consume [14] 0, .consume [14] 7] := by
  constructor
  · exact C4_ticket_consume_one_shot.1
      { issued_tickets := [], consumed_tickets := [], ttl := 60 } [5] _
      (by decide) (by decide)
  · exact C4_ticket_consume_one_shot.2
      { issued_tickets := [], consumed_tickets := [], ttl := 60 } [14] _
      (by decide) (by decide)

/-- C9 counterexample: an issued ticket is consumed once successfully; the
second `consume` of the very same ticket fails with the never-issued error
string, not the already-consumed one — so the claimed `AlreadyConsumed`
outcome for a replayed ticket is false on the code. -/
theorem C9_second_consume_counterexample :
    (ConstructionTicketTable.consume
      (ConstructionTicketTable.issue
        { issued_tickets := [], consumed_tickets := [], ttl := 60 } [5] 0) [5] 1).1 =
      .ok () ∧
    (ConstructionTicketTable.consume
      ((ConstructionTicketTable.consume
        (ConstructionTicketTable.issue
          { issued_tickets := [], consumed_tickets := [], ttl := 60 } [5] 0) [5] 1).2)
      [5] 2).1 = .error ticketNeverIssuedMsg ∧
    ticketNeverIssuedMsg ≠ ticketAlreadyConsumedMsg := by
  refine ⟨by decide, by decide, by decide⟩

/-- C9 (amended): `consume` applies the ordered checks — issued-set
membership first (never-issued error), then consumed-set membership
(already-consumed error).  Because a successful `consume` removes the ticket
from the issued set, a second `consume` of the same ticket fails with the
never-issued error; the already-consumed error is returned exactly when the
ticket is simultaneously in both sets (i.e. only after a reissue). -/
theorem C9_consume_error_discipline :
    (∀ (t : ConstructionTicketTable) (tk : Bytes) (now : Nat),
        lookupA tk t.issued_tickets = none →
        (t.consume tk now).1 = .error ticketNeverIssuedMsg) ∧
    (∀ (t : ConstructionTicketTable) (tk : Bytes) (now : Nat),
        ((t.consume tk now).1 = .error ticketAlreadyConsumedMsg ↔
          (lookupA tk t.issued_tickets).isSome = true ∧
          (lookupA tk t.consumed_tickets).isSome = true)) ∧
    (∀ (t : ConstructionTicketTable) (tk : Bytes) (now now2 : Nat),
        isOkE (t.consume tk now).1 = true →
        (((t.consume tk now).2).consume tk now2).1 = .error ticketNeverIssuedMsg) := by
  have hne : ticketNeverIssuedMsg ≠ ticketAlreadyConsumedMsg := by decide
  have hfirst : ∀ (t : ConstructionTicketTable) (tk : Bytes) (now : Nat),
      lookupA tk t.issued_tickets = none →
      (t.consume tk now).1 = .error ticketNeverIssuedMsg := by
    intro t tk now habs
    simp [ConstructionTicketTable.consume, habs]
  refine ⟨hfirst, ?_, ?_⟩
  · intro t tk now
    cases hi : lookupA tk t.issued_tickets with
    | none =>
        constructor
        · intro h
          have h2 := (hfirst t tk now hi).symm.trans h
          injection h2 with h3
          exact absurd h3 hne
        · rintro ⟨h1, _⟩
          simp [hi] at h1
    | some e1 =>
        cases hc : lookupA tk t.consumed_tickets with
        | none =>
            constructor
            · intro h
              simp [ConstructionTicketTable.consume, hi, hc] at h
            · rintro ⟨_, h2⟩
              simp [hc] at h2
        | some e2 =>
            constructor
            · intro _
              exact ⟨by simp [hi], by simp [hc]⟩
            · intro _
              simp [ConstructionTicketTable.consume, hi, hc]
  · intro t tk now now2 hok
    exact hfirst _ tk now2 (ConstructionTicketTable.consume_removes_issued t tk now hok)

/-- Witness for the amended C9 at concrete tables. -/
theorem C9_consume_error_discipline_witness :
    (ConstructionTicketTable.consume
      { issued_tickets := [], consumed_tickets := [], ttl := 60 } [5] 0).1 =
      .error ticketNeverIssuedMsg ∧
    (ConstructionTicketTable.consume
      { issued_tickets := [([6], 60)], consumed_tickets := [([6], 61)], ttl := 60 }
      [6] 0).1 = .error ticketAlreadyConsumedMsg ∧
    ((ConstructionTicketTable.consume
      ((ConstructionTicketTable.consume
        { issued_tickets := [([7], 60)], consumed_tickets := [], ttl := 60 } [7] 1).2)
      [7] 2).1 = .error ticketNeverIssuedMsg) := by
  refine ⟨?_, ?_, ?_⟩
  · exact C9_consume_error_discipline.1
      { issued_tickets := [], consumed_tickets := [], ttl := 60 } [5] 0 (by decide)
  · exact (C9_consume_error_discipline.2.1
      { issued_tickets := [([6], 60)], consumed_tickets := [([6], 61)], ttl := 60 }
      [6] 0).mpr ⟨by decide, by decide⟩
  · exact C9_consume_error_discipline.2.2
      { issued_tickets := [([7], 60)], consumed_tickets := [], ttl := 60 }
      [7] 1 2 (by decide)

/-! ## frames.rs: `RegisteredFrameTable` -/

/-- frames.rs `FrameMetadata`. -/
structure FrameMetadata where
  level : Nat
  data_digest : Bytes
deriving DecidableEq, Repr

/-- frames.rs `RegisteredFrameTable` (`DashMap<Uuid, FrameMetadata>`; the
16-byte UUID is kept as its byte string). -/
structure RegisteredFrameTable where
  frames : List (Bytes × FrameMetadata)
deriving DecidableEq, Repr

/-- frames.rs `RegisteredFrameTable::contains`. -/
def RegisteredFrameTable.contains (t : RegisteredFrameTable) (frame_id : Bytes) : Bool :=
  (lookupA frame_id t.frames).isSome

/-- frames.rs `RegisteredFrameTable::register_from_grant`. -/
def RegisteredFrameTable.register_from_grant (t : RegisteredFrameTable)
    (grant : GrantRequest) : RegisteredFrameTable :=
  { frames := insertA grant.frame_id
      { level := grant.level, data_digest := grant.data_digest } t.frames }

/-- frames.rs error string of `update` on an unknown frame (the Rust message
appends the frame's UUID display form, abstracted here). -/
def unknownFrameMsg (frame_id : Bytes) : String :=
  "Cannot update unknown frame: " ++ toString frame_id

/-- frames.rs `RegisteredFrameTable::update`: refuses to create entries for
unregistered frames. -/
def RegisteredFrameTable.update (t : RegisteredFrameTable) (frame_id : Bytes)
    (level : Nat) (digest : Bytes) : Except String RegisteredFrameTable :=
  if ¬ t.contains frame_id then .error (unknownFrameMsg frame_id)
  else .ok { frames := insertA frame_id { level := level, data_digest := digest } t.frames }

/-- frames.rs `RegisteredFrameTable::get`. -/
def RegisteredFrameTable.get (t : RegisteredFrameTable) (frame_id : Bytes) :
    Option FrameMetadata :=
  lookupA frame_id t.frames

/-! ## crypto.rs: `Secrets` -/

/-- crypto.rs `Secrets`: the construction token and the seal key, drawn at
startup and immutable afterwards. -/
structure Secrets where
  construction_token : Bytes
  seal_key : Bytes
deriving DecidableEq, Repr

/-- crypto.rs `Secrets::construction_ticket` accessor (returns the token). -/
def Secrets.construction_ticket (s : Secrets) : Bytes :=
  s.construction_token

/-- Big-endian encoding of a `u32` (`level.to_be_bytes()`). -/
def be32 (level : Nat) : Bytes :=
  [level / 2 ^ 24 % 256, level / 2 ^ 16 % 256, level / 2 ^ 8 % 256, level % 256]

/-- crypto.rs `Secrets::compute_seal`: the BLAKE2s-256 keyed MAC is an
external primitive, passed as the parameter `mac` (key, then message); the
message is `frame_id ‖ be32(level) ‖ data_digest`. -/
def Secrets.compute_seal (mac : Bytes → Bytes → Bytes) (s : Secrets)
    (frame_id : Bytes) (level : Nat) (data_digest : Bytes) : Bytes :=
  mac s.seal_key (frame_id ++ be32 level ++ data_digest)

/-- `subtle::ConstantTimeEq::ct_eq` on byte slices of equal length: the
accumulated comparison of the zipped bytes. -/
def ctEq (a b : Bytes) : Bool :=
  (a.zip b).all fun p => p.1 == p.2

theorem ctEq_self (a : Bytes) : ctEq a a = true := by
  induction a with
  | nil => rfl
  | cons x xs ih => simp [ctEq, List.zip] at ih ⊢

/-- crypto.rs `Secrets::verify_seal` (the Rust parameter `seal` is renamed
`candidate_seal`, `seal` being reserved in Lean): recompute, reject on length
mismatch, then constant-time compare. -/
def Secrets.verify_seal (mac : Bytes → Bytes → Bytes) (s : Secrets)
    (frame_id : Bytes) (level : Nat) (data_digest : Bytes)
    (candidate_seal : Bytes) : Bool :=
  let expected := s.compute_seal mac frame_id level data_digest
  if candidate_seal.length ≠ expected.length then false
  else ctEq candidate_seal expected

/-- C5: for every MAC primitive with 32-byte output, every `Secrets` value
and every `(frame_id, level, data_digest)` triple, `verify_seal` accepts the
seal computed by `compute_seal`; and every candidate whose length is not 32
bytes is rejected. -/
theorem C5_verify_compute_roundtrip (mac : Bytes → Bytes → Bytes)
    (hmac32 : ∀ k m, (mac k m).length = 32) (s : Secrets)
    (frame_id : Bytes) (level : Nat) (data_digest : Bytes) :
    s.verify_seal mac frame_id level data_digest
      (s.compute_seal mac frame_id level data_digest) = true ∧
    ∀ candidate : Bytes, candidate.length ≠ 32 →
      s.verify_seal mac frame_id level data_digest candidate = false := by
  constructor
  · simp [Secrets.verify_seal, ctEq_self]
  · intro candidate hlen
    have : candidate.length ≠ (s.compute_seal mac frame_id level data_digest).length := by
      rw [Secrets.compute_seal, hmac32]
      exact hlen
    simp [Secrets.verify_seal, this]

/-- Witness for C5 with a concrete 32-byte MAC and concrete inputs. -/
theorem C5_verify_compute_roundtrip_witness :
    Secrets.verify_seal (fun _ _ => List.replicate 32 0)
      { construction_token := [1], seal_key := [2] } [3] 4 [5]
      (Secrets.compute_seal (fun _ _ => List.replicate 32 0)
        { construction_token := [1], seal_key := [2] } [3] 4 [5]) = true ∧
    Secrets.verify_seal (fun _ _ => List.replicate 32 0)
      { construction_token := [1], seal_key := [2] } [3] 4 [5] [9, 9] = false := by
  constructor
  · exact (C5_verify_compute_roundtrip (fun _ _ => List.replicate 32 0)
      (fun _ _ => by simp) { construction_token := [1], seal_key := [2] } [3] 4 [5]).1
  · exact (C5_verify_compute_roundtrip (fun _ _ => List.replicate 32 0)
      (fun _ _ => by simp) { construction_token := [1], seal_key := [2] } [3] 4 [5]).2
      [9, 9] (by decide)

/-! ## config.rs: `Config` -/

/-- config.rs `SecurityMode`. -/
inductive SecurityMode where
  | sidecar
  | standalone
deriving DecidableEq, Repr

/-- config.rs `Config`.  Note: the struct has exactly these fields — in
particular it carries **no** `max_request_size_bytes` field. -/
structure Config where
  mode : SecurityMode
  socket_path : String
  session_key_path : String
  appuser_uid : Nat
  grant_ttl_secs : Nat
  log_level : String
deriving DecidableEq, Repr

/-! ## protocol.rs: `Request`, `Response` -/

/-- protocol.rs `Request` (the Rust field `seal` is rendered `seal_value`,
`seal` being reserved in Lean). -/
inductive Request where
  | authorizeConstruct (frame_id : Bytes) (level : Nat) (data_digest : Bytes) (auth : Bytes)
  | redeemGrant (grant_id : Bytes) (auth : Bytes)
  | consumeConstructionTicket (ticket : Bytes) (auth : Bytes)
  | computeSeal (frame_id : Bytes) (level : Nat) (data_digest : Bytes) (auth : Bytes)
  | verifySeal (frame_id : Bytes) (level : Nat) (data_digest : Bytes)
      (seal_value : Bytes) (auth : Bytes)
  | healthCheck
deriving DecidableEq, Repr

/-- protocol.rs `Request::auth`. -/
def Request.auth : Request → Option Bytes
  | .authorizeConstruct _ _ _ a => some a
  | .redeemGrant _ a => some a
  | .consumeConstructionTicket _ a => some a
  | .computeSeal _ _ _ a => some a
  | .verifySeal _ _ _ _ a => some a
  | .healthCheck => none

/-- protocol.rs `Request::requires_auth`. -/
def Request.requires_auth : Request → Bool
  | .healthCheck => false
  | _ => true

/-- protocol.rs `Response`, as constructed by server.rs.  `expires_at` (an
`f64` of Unix seconds in Rust) is modelled as the `Nat` number of seconds. -/
inductive Response where
  | authorizeConstructReply (grant_id : Bytes) (expires_at : Nat)
  | redeemGrantReply (construction_ticket seal_value : Bytes) (audit_id : Nat)
  | computeSealReply (seal_value : Bytes) (audit_id : Nat)
  | consumeTicketReply (consumed : Bool) (audit_id : Nat)
  | verifySealReply (valid : Bool) (audit_id : Nat)
  | healthCheckReply (status : String) (uptime_secs requests_served : Nat)
  | Error (error : String) (reason : String)
deriving DecidableEq, Repr

/-! ## server.rs: `Server` -/

/-- External primitives used by the server, assumed by the repository:
the BLAKE2s keyed MAC (`blake2`), HMAC verification (`ring::hmac`), the
canonical CBOR encoder (`ciborium`) and the CBOR request decoder
(`serde_cbor::from_slice`). -/
structure Ext where
  mac : Bytes → Bytes → Bytes
  hmac_verify : Bytes → Bytes → Bytes → Bool
  canonical : Request → Bytes
  decode : Bytes → Option Request

/-- The per-request environment: the clock sample and the CSPRNG draws made
while handling the request. -/
structure Env where
  now : Nat
  fresh_grant_id : Bytes
  fresh_ticket : Bytes
deriving DecidableEq, Repr

/-- server.rs `Server` (the shared state cloned into each connection task). -/
structure ServerState where
  config : Config
  secrets : Secrets
  grants : GrantTable
  tickets : ConstructionTicketTable
  frames : RegisteredFrameTable
  session_key : Bytes
  start_time : Nat
  requests_served : Nat
deriving DecidableEq, Repr

/-- server.rs `Server::validate_request_auth`. -/
def Server.validate_request_auth (ext : Ext) (st : ServerState) (req : Request) : Bool :=
  match req.auth with
  | none => true
  | some provided => ext.hmac_verify st.session_key (ext.canonical req) provided

/-- Reason string of the "Frame not registered" error (the Rust message
interpolates the UUID display form, abstracted here). -/
def frameNotRegisteredReason (frame_id : Bytes) : String :=
  "Frame " ++ toString frame_id ++ " must be registered via grant redemption first"

/-- server.rs `Server::handle_request`: HMAC gate, request counter, then
dispatch to the per-variant handlers (`handle_authorize_construct`,
`handle_redeem_grant`, `handle_compute_seal`, `handle_verify_seal`,
`handle_health_check`, `handle_consume_construction_ticket`), all inlined
here.  Returns the mutated shared state and the `anyhow::Result<Response>`. -/
def Server.handle_request (ext : Ext) (st : ServerState) (env : Env) (req : Request) :
    ServerState × Except String Response :=
  if req.requires_auth && !(Server.validate_request_auth ext st req) then
    (st, .ok (.Error "Authentication failed" "Invalid HMAC signature"))
  else
    let st1 : ServerState := { st with requests_served := st.requests_served + 1 }
    match req with
    | .authorizeConstruct frame_id level data_digest _ =>
        let greq : GrantRequest :=
          { frame_id := frame_id, level := level, data_digest := data_digest }
        let ag := st1.grants.authorize env.fresh_grant_id env.fresh_ticket greq env.now
        ({ st1 with grants := ag.1 },
          .ok (.authorizeConstructReply ag.2 (env.now + st1.config.grant_ttl_secs)))
    | .redeemGrant grant_id _ =>
        let rg := st1.grants.redeem grant_id env.now
        let st2 : ServerState := { st1 with grants := rg.2 }
        match rg.1 with
        | .error e => (st2, .error ("Grant redemption failed: " ++ e))
        | .ok (greq, ticket) =>
            let st3 : ServerState := { st2 with tickets := st2.tickets.issue ticket env.now }
            let st4 : ServerState := { st3 with frames := st3.frames.register_from_grant greq }
            let seal_value :=
              st4.secrets.compute_seal ext.mac greq.frame_id greq.level greq.data_digest
            (st4, .ok (.redeemGrantReply ticket seal_value 0))
    | .computeSeal frame_id level data_digest _ =>
        if !(st1.frames.contains frame_id) then
          (st1, .ok (.Error "Frame not registered" (frameNotRegisteredReason frame_id)))
        else
          let seal_value := st1.secrets.compute_seal ext.mac frame_id level data_digest
          match st1.frames.update frame_id level data_digest with
          | .error e => (st1, .error e)
          | .ok frames2 =>
              ({ st1 with frames := frames2 }, .ok (.computeSealReply seal_value 0))
    | .verifySeal frame_id level data_digest seal_value _ =>
        if !(st1.frames.contains frame_id) then
          (st1, .ok (.Error "Frame not registered" (frameNotRegisteredReason frame_id)))
        else
          (st1, .ok (.verifySealReply
            (st1.secrets.verify_seal ext.mac frame_id level data_digest seal_value) 0))
    | .healthCheck =>
        (st1, .ok (.healthCheckReply "healthy" (env.now - st1.start_time) st1.requests_served))
    | .consumeConstructionTicket ticket _ =>
        let ct := st1.tickets.consume ticket env.now
        let st2 : ServerState := { st1 with tickets := ct.2 }
        match ct.1 with
        | .ok _ => (st2, .ok (.consumeTicketReply true 0))
        | .error e => (st2, .ok (.Error "Ticket consumption failed" e))

/-- Outcome of one connection, as seen by the peer. -/
inductive ConnOutcome where
  | closedNoReply
  | reply (r : Response)
deriving DecidableEq, Repr

/-- server.rs `Server::handle_client`: peer-UID check (bail without reply),
`read_to_end` into `buffer` — with **no size bound** — empty-read early
return, CBOR decode whose failure propagates with `?` (closing the
connection without a reply), then dispatch; only errors from
`handle_request` are converted to an `Error{"Request failed", reason}`
response before the write. -/
def Server.handle_client (ext : Ext) (st : ServerState) (env : Env)
    (peer_uid : Nat) (buffer : Bytes) : ConnOutcome × ServerState :=
  if peer_uid ≠ st.config.appuser_uid then (.closedNoReply, st)
  else if buffer.isEmpty then (.closedNoReply, st)
  else
    match ext.decode buffer with
    | none => (.closedNoReply, st)
    | some req =>
        let hr := Server.handle_request ext st env req
        match hr.2 with
        | .ok r => (.reply r, hr.1)
        | .error e => (.reply (.Error "Request failed" e), hr.1)

/-! ### Concrete fixtures for closed theorems -/

/-- A concrete configuration (mirrors the integration tests' values). -/
def exampleConfig : Config :=
  { mode := .sidecar, socket_path := "/run/sidecar/auth.sock",
    session_key_path := "/run/sidecar/.session", appuser_uid := 1000,
    grant_ttl_secs := 60, log_level := "debug" }

/-- A concrete freshly-started server state. -/
def exampleState : ServerState :=
  { config := exampleConfig,
    secrets := { construction_token := List.replicate 32 1,
                 seal_key := List.replicate 32 2 },
    grants := { grants := [], ttl := 60 },
    tickets := { issued_tickets := [], consumed_tickets := [], ttl := 60 },
    frames := { frames := [] },
    session_key := List.replicate 32 3,
    start_time := 0, requests_served := 0 }

/-- A concrete request environment. -/
def env0 : Env :=
  { now := 0, fresh_grant_id := List.replicate 16 4,
    fresh_ticket := List.replicate 32 5 }

/-- Concrete externals where the CBOR decode fails (as `serde_cbor` does on
a buffer that is not a valid tagged request, e.g. 2048 bytes of `0x42`). -/
def extDecodeFail : Ext :=
  { mac := fun _ _ => List.replicate 32 0,
    hmac_verify := fun _ _ _ => true,
    canonical := fun _ => [],
    decode := fun _ => none }

/-- Concrete externals where the buffer decodes to a `RedeemGrant` for an
absent grant id, and HMAC verification accepts. -/
def extRedeemAbsent : Ext :=
  { extDecodeFail with decode := fun _ => some (.redeemGrant (List.replicate 16 9) []) }

/-- C1 (behaviour at the failing input): the connection handler reads the
whole payload with no size bound — `Config` has no `max_request_size_bytes`
field at all — so a 2048-byte garbage payload is never answered with an
oversize `Error`; its decode failure closes the connection with no reply. -/
theorem C1_oversized_request_no_reply :
    (Server.handle_client extDecodeFail exampleState env0 1000
      (List.replicate 2048 66)).1 = .closedNoReply := by
  rfl

/-- C6 counterexample: a connection from the authorized UID whose bytes fail
to decode is closed with **no** reply — no `Error` response is written. -/
theorem C6_decode_failure_silent_close :
    (Server.handle_client extDecodeFail exampleState env0 1000 [66]).1 =
      .closedNoReply ∧
    ¬ ∃ r : Response,
      (Server.handle_client extDecodeFail exampleState env0 1000 [66]).1 = .reply r := by
  constructor
  · rfl
  · rintro ⟨r, hr⟩
    have h0 : (Server.handle_client extDecodeFail exampleState env0 1000 [66]).1 =
        .closedNoReply := rfl
    rw [h0] at hr
    exact ConnOutcome.noConfusion hr

/-- C6 (amended): failures **after** a successful decode never close the
connection silently — a decoded request always gets a reply, and an error
from `handle_request` is delivered as `Error{"Request failed", reason}`;
decode failures (and the peer-UID mismatch and the empty read) do close the
connection without a reply. -/
theorem C6_handled_request_always_replied :
    (∀ (ext : Ext) (st : ServerState) (env : Env) (buffer : Bytes) (req : Request),
        buffer.isEmpty = false → ext.decode buffer = some req →
        ∃ r, (Server.handle_client ext st env st.config.appuser_uid buffer).1 = .reply r) ∧
    (∀ (ext : Ext) (st : ServerState) (env : Env) (buffer : Bytes) (req : Request)
        (e : String),
        buffer.isEmpty = false → ext.decode buffer = some req →
        (Server.handle_request ext st env req).2 = .error e →
        (Server.handle_client ext st env st.config.appuser_uid buffer).1 =
          .reply (.Error "Request failed" e)) := by
  constructor
  · intro ext st env buffer req hne hdec
    cases h : (Server.handle_request ext st env req).2 with
    | ok r =>
        exact ⟨r, by simp [Server.handle_client, hne, hdec, h]⟩
    | error e =>
        exact ⟨.Error "Request failed" e, by simp [Server.handle_client, hne, hdec, h]⟩
  · intro ext st env buffer req e hne hdec herr
    simp [Server.handle_client, hne, hdec, herr]

/-- Witness for the amended C6 at a concrete decoded request. -/
theorem C6_handled_request_always_replied_witness :
    (∃ r, (Server.handle_client extRedeemAbsent exampleState env0
      exampleState.config.appuser_uid [1]).1 = .reply r) ∧
    (Server.handle_client extRedeemAbsent exampleState env0
      exampleState.config.appuser_uid [1]).1 =
      .reply (.Error "Request failed"
        ("Grant redemption failed: " ++ grantNotFoundMsg)) := by
  constructor
  · exact C6_handled_request_always_replied.1 extRedeemAbsent exampleState env0 [1]
      (.redeemGrant (List.replicate 16 9) []) (by decide) rfl
  · exact C6_handled_request_always_replied.2 extRedeemAbsent exampleState env0 [1]
      (.redeemGrant (List.replicate 16 9) [])
      ("Grant redemption failed: " ++ grantNotFoundMsg) (by decide) rfl (by rfl)

/-- C7 counterexample: redeeming an absent grant over a connection delivers
an `Error` whose `error` field is `"Request failed"` (the reason carries the
"Grant redemption failed: …" text) — the `error` field is **not**
`"Grant redemption failed"` as claimed. -/
theorem C7_redeem_error_field_counterexample :
    (Server.handle_client extRedeemAbsent exampleState env0 1000 [1]).1 =
      .reply (.Error "Request failed"
        "Grant redemption failed: Grant not found or already redeemed") ∧
    "Request failed" ≠ "Grant redemption failed" := by
  constructor
  · rfl
  · decide

/-- C7 (amended): for a `RedeemGrant` whose redemption fails (absent or
expired grant), the peer receives
`Error{error := "Request failed", reason := "Grant redemption failed: <cause>"}`;
for an absent (e.g. replayed) grant id the cause is the not-found message,
so the reason contains `"not found"`. -/
theorem C7_redeem_failure_reply :
    (∀ (ext : Ext) (st : ServerState) (env : Env) (buffer grant_id auth : Bytes)
        (e : String),
        buffer.isEmpty = false →
        ext.decode buffer = some (.redeemGrant grant_id auth) →
        Server.validate_request_auth ext st (.redeemGrant grant_id auth) = true →
        (st.grants.redeem grant_id env.now).1 = .error e →
        (Server.handle_client ext st env st.config.appuser_uid buffer).1 =
          .reply (.Error "Request failed" ("Grant redemption failed: " ++ e))) ∧
    (∀ (st : ServerState) (env : Env) (grant_id : Bytes),
        lookupA grant_id st.grants.grants = none →
        (st.grants.redeem grant_id env.now).1 = .error grantNotFoundMsg) ∧
    ("Grant redemption failed: " ++ grantNotFoundMsg =
      "Grant redemption failed: Grant " ++ "not found" ++ " or already redeemed") := by
  refine ⟨?_, ?_, by decide⟩
  · intro ext st env buffer grant_id auth e hne hdec hva herr
    simp [Server.handle_client, hne, hdec, Server.handle_request,
      Request.requires_auth, hva, herr]
  · intro st env grant_id habs
    simp [GrantTable.redeem, habs]

/-- Witness for the amended C7 at a concrete connection. -/
theorem C7_redeem_failure_reply_witness :
    (Server.handle_client extRedeemAbsent exampleState env0
      exampleState.config.appuser_uid [1]).1 =
      .reply (.Error "Request failed"
        ("Grant redemption failed: " ++ grantNotFoundMsg)) ∧
    (GrantTable.redeem exampleState.grants (List.replicate 16 9) env0.now).1 =
      .error grantNotFoundMsg := by
  constructor
  · exact C7_redeem_failure_reply.1 extRedeemAbsent exampleState env0 [1]
      (List.replicate 16 9) [] grantNotFoundMsg (by decide) rfl rfl
      (C7_redeem_failure_reply.2.1 exampleState env0 (List.replicate 16 9) (by decide))
  · exact C7_redeem_failure_reply.2.1 exampleState env0 (List.replicate 16 9) (by decide)

/-- C3: with valid authentication, a `ComputeSeal` or `VerifySeal` request
for a frame id that was never registered returns
`Error{"Frame not registered"}` and leaves the frame table unchanged;
`RegisteredFrameTable::update` refuses to create entries for unregistered
frames; and the only request variant that can register a new frame id is
`RedeemGrant` — registration happens only through grant redemption. -/
theorem C3_unregistered_frame_gate :
    (∀ (ext : Ext) (st : ServerState) (env : Env) (frame_id : Bytes) (level : Nat)
        (data_digest auth : Bytes),
        Server.validate_request_auth ext st
          (.computeSeal frame_id level data_digest auth) = true →
        st.frames.contains frame_id = false →
        (Server.handle_request ext st env
            (.computeSeal frame_id level data_digest auth)).2 =
          .ok (.Error "Frame not registered" (frameNotRegisteredReason frame_id)) ∧
        ((Server.handle_request ext st env
            (.computeSeal frame_id level data_digest auth)).1).frames = st.frames) ∧
    (∀ (ext : Ext) (st : ServerState) (env : Env) (frame_id : Bytes) (level : Nat)
        (data_digest seal_value auth : Bytes),
        Server.validate_request_auth ext st
          (.verifySeal frame_id level data_digest seal_value auth) = true →
        st.frames.contains frame_id = false →
        (Server.handle_request ext st env
            (.verifySeal frame_id level data_digest seal_value auth)).2 =
          .ok (.Error "Frame not registered" (frameNotRegisteredReason frame_id)) ∧
        ((Server.handle_request ext st env
            (.verifySeal frame_id level data_digest seal_value auth)).1).frames = st.frames) ∧
    (∀ (t : RegisteredFrameTable) (frame_id : Bytes) (level : Nat) (digest : Bytes),
        t.contains frame_id = false →
        t.update frame_id level digest = .error (unknownFrameMsg frame_id)) ∧
    (∀ (ext : Ext) (st : ServerState) (env : Env) (req : Request) (frame_id : Bytes),
        st.frames.contains frame_id = false →
        ((Server.handle_request ext st env req).1).frames.contains frame_id = true →
        ∃ grant_id auth, req = .redeemGrant grant_id auth) := by
  refine ⟨?_, ?_, ?_, ?_⟩
  · intro ext st env frame_id level data_digest auth hva hc
    constructor <;> simp [Server.handle_request, Request.requires_auth, hva, hc]
  · intro ext st env frame_id level data_digest seal_value auth hva hc
    constructor <;> simp [Server.handle_request, Request.requires_auth, hva, hc]
  · intro t frame_id level digest hc
    simp [RegisteredFrameTable.update, hc]
  · intro ext st env req frame_id hfalse htrue
    cases req with
    | redeemGrant grant_id auth => exact ⟨grant_id, auth, rfl⟩
    | authorizeConstruct f l d a =>
        by_cases hva : Server.validate_request_auth ext st (.authorizeConstruct f l d a) = true
        · simp [Server.handle_request, Request.requires_auth, hva, hfalse] at htrue
        · simp [Server.handle_request, Request.requires_auth, hva, hfalse] at htrue
    | computeSeal f l d a =>
        by_cases hva : Server.validate_request_auth ext st (.computeSeal f l d a) = true
        · by_cases hc : st.frames.contains f
          · by_cases hff : frame_id = f
            · subst hff
              rw [hc] at hfalse
              exact Bool.noConfusion hfalse
            · obtain ⟨m, hm⟩ : ∃ m, lookupA f st.frames.frames = some m := by
                rw [RegisteredFrameTable.contains] at hc
                cases hx : lookupA f st.frames.frames with
                | none => rw [hx] at hc; exact Bool.noConfusion hc
                | some m => exact ⟨m, rfl⟩
              simp [Server.handle_request, Request.requires_auth, hva,
                RegisteredFrameTable.update, RegisteredFrameTable.contains, hm,
                lookupA_insertA_ne hff] at htrue
              rw [RegisteredFrameTable.contains] at hfalse
              rw [hfalse] at htrue
              exact Bool.noConfusion htrue
          · simp [Server.handle_request, Request.requires_auth, hva, hc, hfalse] at htrue
        · simp [Server.handle_request, Request.requires_auth, hva, hfalse] at htrue
    | verifySeal f l d sv a =>
        by_cases hva : Server.validate_request_auth ext st (.verifySeal f l d sv a) = true
        · by_cases hc : st.frames.contains f
          · simp [Server.handle_request, Request.requires_auth, hva, hc, hfalse] at htrue
          · simp [Server.handle_request, Request.requires_auth, hva, hc, hfalse] at htrue
        · simp [Server.handle_request, Request.requires_auth, hva, hfalse] at htrue
    | healthCheck =>
        simp [Server.handle_request, Request.requires_auth, hfalse] at htrue
    | consumeConstructionTicket tk a =>
        by_cases hva :
            Server.validate_request_auth ext st (.consumeConstructionTicket tk a) = true
        · cases hct : (st.tickets.consume tk env.now).1 with
          | ok u =>
              simp [Server.handle_request, Request.requires_auth, hva, hct, hfalse] at htrue
          | error e =>
              simp [Server.handle_request, Request.requires_auth, hva, hct, hfalse] at htrue
        · simp [Server.handle_request, Request.requires_auth, hva, hfalse] at htrue

/-- A concrete pending grant for the frame id `0x07 × 16`. -/
def exampleGrant : Grant :=
  { request := { frame_id := List.replicate 16 7, level := 3,
                 data_digest := List.replicate 32 255 },
    construction_ticket := List.replicate 32 5, expires_at := 60 }

/-- `exampleState` with `exampleGrant` pending under grant id `0x09 × 16`. -/
def exampleStateWithGrant : ServerState :=
  { exampleState with
    grants := { grants := [(List.replicate 16 9, exampleGrant)], ttl := 60 } }

/-- Witness for C3: both seal operations rejected on a fresh server, `update`
refused on an empty table, and a concrete redemption registering a frame. -/
theorem C3_unregistered_frame_gate_witness :
    (Server.handle_request extDecodeFail exampleState env0
        (.computeSeal (List.replicate 16 7) 3 (List.replicate 32 255) [])).2 =
      .ok (.Error "Frame not registered"
        (frameNotRegisteredReason (List.replicate 16 7))) ∧
    (Server.handle_request extDecodeFail exampleState env0
        (.verifySeal (List.replicate 16 7) 3 (List.replicate 32 255)
          (List.replicate 32 0) [])).2 =
      .ok (.Error "Frame not registered"
        (frameNotRegisteredReason (List.replicate 16 7))) ∧
    RegisteredFrameTable.update { frames := [] } (List.replicate 16 7) 3
        (List.replicate 32 255) =
      .error (unknownFrameMsg (List.replicate 16 7)) ∧
    ∃ grant_id auth, (.redeemGrant (List.replicate 16 9) [] : Request) =
      .redeemGrant grant_id auth := by
  refine ⟨?_, ?_, ?_, ?_⟩
  · exact (C3_unregistered_frame_gate.1 extDecodeFail exampleState env0
      (List.replicate 16 7) 3 (List.replicate 32 255) [] rfl (by decide)).1
  · exact (C3_unregistered_frame_gate.2.1 extDecodeFail exampleState env0
      (List.replicate 16 7) 3 (List.replicate 32 255) (List.replicate 32 0) []
      rfl (by decide)).1
  · exact C3_unregistered_frame_gate.2.2.1 { frames := [] } (List.replicate 16 7) 3
      (List.replicate 32 255) (by decide)
  · exact C3_unregistered_frame_gate.2.2.2 extDecodeFail exampleStateWithGrant
      env0 (.redeemGrant (List.replicate 16 9) []) (List.replicate 16 7)
      (by decide) (by decide)

/-- The non-secret part of the server state: everything a handler can
mutate. -/
def stateView (st : ServerState) :
    GrantTable × ConstructionTicketTable × RegisteredFrameTable × Nat :=
  (st.grants, st.tickets, st.frames, st.requests_served)

/-- `handle_request` is insensitive to `construction_token`: with the seal
key, tables, session key, clock and RNG draws fixed, changing the token
changes neither the response nor any mutable state component. -/
theorem handle_request_token_independent (ext : Ext) (env : Env) (req : Request)
    (cfg : Config) (tok1 tok2 sk : Bytes) (gt : GrantTable)
    (tt : ConstructionTicketTable) (ft : RegisteredFrameTable) (skey : Bytes)
    (t0 rs : Nat) :
    (Server.handle_request ext
        { config := cfg, secrets := { construction_token := tok1, seal_key := sk },
          grants := gt, tickets := tt, frames := ft, session_key := skey,
          start_time := t0, requests_served := rs } env req).2 =
      (Server.handle_request ext
        { config := cfg, secrets := { construction_token := tok2, seal_key := sk },
          grants := gt, tickets := tt, frames := ft, session_key := skey,
          start_time := t0, requests_served := rs } env req).2 ∧
    stateView (Server.handle_request ext
        { config := cfg, secrets := { construction_token := tok1, seal_key := sk },
          grants := gt, tickets := tt, frames := ft, session_key := skey,
          start_time := t0, requests_served := rs } env req).1 =
      stateView (Server.handle_request ext
        { config := cfg, secrets := { construction_token := tok2, seal_key := sk },
          grants := gt, tickets := tt, frames := ft, session_key := skey,
          start_time := t0, requests_served := rs } env req).1 := by
  cases req with
  | authorizeConstruct f l d a =>
      by_cases hv : ext.hmac_verify skey (ext.canonical (.authorizeConstruct f l d a)) a = true
      · constructor <;>
          simp [Server.handle_request, Server.validate_request_auth, Request.auth,
            Request.requires_auth, hv, stateView]
      · constructor <;>
          simp [Server.handle_request, Server.validate_request_auth, Request.auth,
            Request.requires_auth, hv, stateView]
  | redeemGrant gid a =>
      by_cases hv : ext.hmac_verify skey (ext.canonical (.redeemGrant gid a)) a = true
      · cases hrg : (GrantTable.redeem gt gid env.now).1 with
        | error e =>
            constructor <;>
              simp [Server.handle_request, Server.validate_request_auth, Request.auth,
                Request.requires_auth, hv, hrg, stateView]
        | ok pr =>
            constructor <;>
              simp [Server.handle_request, Server.validate_request_auth, Request.auth,
                Request.requires_auth, hv, hrg, stateView, Secrets.compute_seal]
      · constructor <;>
          simp [Server.handle_request, Server.validate_request_auth, Request.auth,
            Request.requires_auth, hv, stateView]
  | computeSeal f l d a =>
      by_cases hv : ext.hmac_verify skey (ext.canonical (.computeSeal f l d a)) a = true
      · cases hl : lookupA f ft.frames with
        | none =>
            constructor <;>
              simp [Server.handle_request, Server.validate_request_auth, Request.auth,
                Request.requires_auth, hv, RegisteredFrameTable.contains, hl, stateView]
        | some m =>
            constructor <;>
              simp [Server.handle_request, Server.validate_request_auth, Request.auth,
                Request.requires_auth, hv, RegisteredFrameTable.contains,
                RegisteredFrameTable.update, hl, stateView, Secrets.compute_seal]
      · constructor <;>
          simp [Server.handle_request, Server.validate_request_auth, Request.auth,
            Request.requires_auth, hv, stateView]
  | verifySeal f l d sv a =>
      by_cases hv : ext.hmac_verify skey (ext.canonical (.verifySeal f l d sv a)) a = true
      · cases hl : lookupA f ft.frames with
        | none =>
            constructor <;>
              simp [Server.handle_request, Server.validate_request_auth, Request.auth,
                Request.requires_auth, hv, RegisteredFrameTable.contains, hl, stateView]
        | some m =>
            constructor <;>
              simp [Server.handle_request, Server.validate_request_auth, Request.auth,
                Request.requires_auth, hv, RegisteredFrameTable.contains, hl, stateView,
                Secrets.verify_seal, Secrets.compute_seal]
      · constructor <;>
          simp [Server.handle_request, Server.validate_request_auth, Request.auth,
            Request.requires_auth, hv, stateView]
  | healthCheck =>
      constructor <;>
        simp [Server.handle_request, Server.validate_request_auth, Request.auth,
          Request.requires_auth, stateView]
  | consumeConstructionTicket tk a =>
      by_cases hv : ext.hmac_verify skey (ext.canonical (.consumeConstructionTicket tk a)) a = true
      · cases hct : (ConstructionTicketTable.consume tt tk env.now).1 with
        | ok u =>
            constructor <;>
              simp [Server.handle_request, Server.validate_request_auth, Request.auth,
                Request.requires_auth, hv, hct, stateView]
        | error e =>
            constructor <;>
              simp [Server.handle_request, Server.validate_request_auth, Request.auth,
                Request.requires_auth, hv, hct, stateView]
      · constructor <;>
          simp [Server.handle_request, Server.validate_request_auth, Request.auth,
            Request.requires_auth, hv, stateView]

/-- C10: the construction token drawn at startup has no influence on any
observable output — for any two server states differing only in
`construction_token` (same seal key, session key, tables, clock and RNG
draws), every request's response, every mutable state component, and every
connection outcome coincide; and the ticket returned by a successful
`RedeemGrant` is the grant's own stored `construction_ticket` (the reply is
built from the redeemed grant, never from `Secrets.construction_ticket`). -/
theorem C10_construction_token_noninterference :
    (∀ (ext : Ext) (env : Env) (req : Request) (cfg : Config) (tok1 tok2 sk : Bytes)
        (gt : GrantTable) (tt : ConstructionTicketTable) (ft : RegisteredFrameTable)
        (skey : Bytes) (t0 rs : Nat),
        (Server.handle_request ext
            { config := cfg, secrets := { construction_token := tok1, seal_key := sk },
              grants := gt, tickets := tt, frames := ft, session_key := skey,
              start_time := t0, requests_served := rs } env req).2 =
          (Server.handle_request ext
            { config := cfg, secrets := { construction_token := tok2, seal_key := sk },
              grants := gt, tickets := tt, frames := ft, session_key := skey,
              start_time := t0, requests_served := rs } env req).2 ∧
        stateView (Server.handle_request ext
            { config := cfg, secrets := { construction_token := tok1, seal_key := sk },
              grants := gt, tickets := tt, frames := ft, session_key := skey,
              start_time := t0, requests_served := rs } env req).1 =
          stateView (Server.handle_request ext
            { config := cfg, secrets := { construction_token := tok2, seal_key := sk },
              grants := gt, tickets := tt, frames := ft, session_key := skey,
              start_time := t0, requests_served := rs } env req).1) ∧
    (∀ (ext : Ext) (env : Env) (cfg : Config) (tok1 tok2 sk : Bytes)
        (gt : GrantTable) (tt : ConstructionTicketTable) (ft : RegisteredFrameTable)
        (skey : Bytes) (t0 rs peer_uid : Nat) (buffer : Bytes),
        (Server.handle_client ext
            { config := cfg, secrets := { construction_token := tok1, seal_key := sk },
              grants := gt, tickets := tt, frames := ft, session_key := skey,
              start_time := t0, requests_served := rs } env peer_uid buffer).1 =
          (Server.handle_client ext
            { config := cfg, secrets := { construction_token := tok2, seal_key := sk },
              grants := gt, tickets := tt, frames := ft, session_key := skey,
              start_time := t0, requests_served := rs } env peer_uid buffer).1) ∧
    (∀ (m : Bytes → Bytes → Bytes) (c : Request → Bytes) (d : Bytes → Option Request)
        (env : Env) (cfg : Config) (s : Secrets) (gid auth : Bytes)
        (greq : GrantRequest) (tkt : Bytes) (dur : Nat) (tail : List (Bytes × Grant))
        (ttl : Nat) (tt : ConstructionTicketTable) (ft : RegisteredFrameTable)
        (skey : Bytes) (t0 rs : Nat),
        (Server.handle_request
            { mac := m, hmac_verify := fun _ _ _ => true, canonical := c, decode := d }
            { config := cfg, secrets := s,
              grants := { grants := insertA gid ⟨greq, tkt, env.now + dur⟩ tail,
                          ttl := ttl },
              tickets := tt, frames := ft, session_key := skey,
              start_time := t0, requests_served := rs }
            env (.redeemGrant gid auth)).2 =
          .ok (.redeemGrantReply tkt
            (s.compute_seal m greq.frame_id greq.level greq.data_digest) 0)) := by
  refine ⟨handle_request_token_independent, ?_, ?_⟩
  · intro ext env cfg tok1 tok2 sk gt tt ft skey t0 rs peer_uid buffer
    by_cases hp : peer_uid = cfg.appuser_uid
    · by_cases hb : buffer.isEmpty
      · simp [Server.handle_client, hp, hb]
      · cases hd : ext.decode buffer with
        | none => simp [Server.handle_client, hp, hb, hd]
        | some req =>
            have h2 := (handle_request_token_independent ext env req cfg tok1 tok2 sk
              gt tt ft skey t0 rs).1
            simp only [Server.handle_client, hp, hb, hd]
            simp only [h2]
            cases hres : (Server.handle_request ext
                { config := cfg, secrets := { construction_token := tok2, seal_key := sk },
                  grants := gt, tickets := tt, frames := ft, session_key := skey,
                  start_time := t0, requests_served := rs } env req).2 with
            | ok r => simp [hres]
            | error e => simp [hres]
    · simp [Server.handle_client, hp]
  · intro m c d env cfg s gid auth greq tkt dur tail ttl tt ft skey t0 rs
    have hlt : ¬ (env.now + dur < env.now) := by omega
    simp [Server.handle_request, Server.validate_request_auth, Request.auth,
      Request.requires_auth, GrantTable.redeem, lookupA_insertA_self, hlt]

/-! ## server.rs `load_or_init_session_key` -/

/-- The state of the session-key path on disk.  `mode` holds the permission
bits (the file-type bits of `st_mode` are not modelled, so the Rust
`mode & 0o777` is `mode &&& 0o777` here); `umask` is the process umask
applied by `open(2)` to the requested `0o640`. -/
structure KeyFileState where
  file_exists : Bool
  contents : Bytes
  mode : Nat
  umask : Nat
deriving DecidableEq, Repr

/-- Error string for a wrong-length pre-existing key file. -/
def invalidKeyLengthMsg (n : Nat) : String :=
  "Invalid session key length: " ++ toString n ++ " bytes (expected 32)"

/-- Error string for the failed post-write permission verification. -/
def badPermissionsMsg : String := "Session key file has incorrect permissions"

/-- server.rs `load_or_init_session_key`.  If the file exists: read it and
require exactly 32 bytes (no permission check on this path).  Otherwise:
create it requesting mode `0o640` (masked by the umask), write the 32 fresh
random bytes (`rand32`), fsync, then re-stat and fail unless the permission
bits are exactly `0o640`.  IO failures (open/write/fsync errors) are not
modelled; the result is the loaded key and the resulting file state. -/
def load_or_init_session_key (fs : KeyFileState) (rand32 : Bytes) :
    Except String (Bytes × KeyFileState) :=
  if fs.file_exists then
    if fs.contents.length ≠ 32 then .error (invalidKeyLengthMsg fs.contents.length)
    else .ok (fs.contents, fs)
  else
    let created_mode := 0o640 &&& (0o777 ^^^ fs.umask)
    let fs' : KeyFileState :=
      { fs with file_exists := true, contents := rand32, mode := created_mode }
    if created_mode &&& 0o777 ≠ 0o640 then .error badPermissionsMsg
    else .ok (rand32, fs')

/-- C8 counterexample: a pre-existing 32-byte key file with permission bits
`0o600` loads successfully and keeps its bits — `load_or_init` returns `Ok`
while the file's mode is not `0o640`, contradicting the claim's load-path
guarantee. -/
theorem C8_load_path_mode_counterexample :
    load_or_init_session_key
        { file_exists := true, contents := List.replicate 32 7, mode := 0o600,
          umask := 0o022 } [] =
      .ok (List.replicate 32 7,
        { file_exists := true, contents := List.replicate 32 7, mode := 0o600,
          umask := 0o022 }) ∧
    (0o600 : Nat) &&& 0o777 ≠ 0o640 := by
  constructor
  · rfl
  · decide

/-- C8 (amended): on the **create** path a success guarantees permission
bits exactly `0o640` (the post-write verification is fatal otherwise) and
the file holds exactly the 32 fresh random bytes; on the **load** path only
the 32-byte length is enforced — success returns the file's contents with
the file untouched (permissions unchecked), and any other length is fatal
with the invalid-length error. -/
theorem C8_session_key_guarantees :
    (∀ (fs : KeyFileState) (rand32 key : Bytes) (fs' : KeyFileState),
        fs.file_exists = false →
        load_or_init_session_key fs rand32 = .ok (key, fs') →
        fs'.mode &&& 0o777 = 0o640 ∧ key = rand32 ∧ fs'.contents = rand32 ∧
        fs'.file_exists = true) ∧
    (∀ (fs : KeyFileState) (rand32 : Bytes),
        fs.file_exists = true →
        (fs.contents.length = 32 →
          load_or_init_session_key fs rand32 = .ok (fs.contents, fs)) ∧
        (fs.contents.length ≠ 32 →
          load_or_init_session_key fs rand32 =
            .error (invalidKeyLengthMsg fs.contents.length))) ∧
    (∀ (fs : KeyFileState) (rand32 key : Bytes) (fs' : KeyFileState),
        rand32.length = 32 →
        load_or_init_session_key fs rand32 = .ok (key, fs') →
        key.length = 32 ∧ fs'.contents.length = 32) := by
  refine ⟨?_, ?_, ?_⟩
  · intro fs rand32 key fs' hex hok
    rw [load_or_init_session_key, hex] at hok
    simp only [Bool.false_eq_true, if_false] at hok
    by_cases hperm : (0o640 &&& (0o777 ^^^ fs.umask)) &&& 0o777 ≠ 0o640
    · simp [hperm] at hok
    · push_neg at hperm
      simp only [hperm, if_neg] at hok
      simp at hok
      obtain ⟨hkey, hfs⟩ := hok
      subst hkey
      subst hfs
      exact ⟨by simpa using hperm, rfl, rfl, rfl⟩
  · intro fs rand32 hex
    constructor
    · intro hlen
      simp [load_or_init_session_key, hex, hlen]
    · intro hlen
      simp [load_or_init_session_key, hex, hlen]
  · intro fs rand32 key fs' hr hok
    by_cases hex : fs.file_exists = true
    · by_cases hlen : fs.contents.length = 32
      · rw [load_or_init_session_key, hex] at hok
        simp [hlen] at hok
        obtain ⟨hkey, hfs⟩ := hok
        subst hkey
        subst hfs
        exact ⟨hlen, hlen⟩
      · rw [load_or_init_session_key, hex] at hok
        simp [hlen] at hok
    · have hex' : fs.file_exists = false := by
        cases hfe : fs.file_exists
        · rfl
        · exact absurd hfe hex
      rw [load_or_init_session_key, hex'] at hok
      simp only [Bool.false_eq_true, if_false] at hok
      by_cases hperm : (0o640 &&& (0o777 ^^^ fs.umask)) &&& 0o777 ≠ 0o640
      · simp [hperm] at hok
      · push_neg at hperm
        simp only [hperm, if_neg] at hok
        simp at hok
        obtain ⟨hkey, hfs⟩ := hok
        subst hkey
        subst hfs
        exact ⟨hr, hr⟩

/-- Witness for the amended C8 at concrete file states. -/
theorem C8_session_key_guarantees_witness :
    ((load_or_init_session_key
        { file_exists := false, contents := [], mode := 0, umask := 0o027 }
        (List.replicate 32 8) =
      .ok (List.replicate 32 8,
        { file_exists := true, contents := List.replicate 32 8, mode := 0o640,
          umask := 0o027 })) ∧
      (0o640 : Nat) &&& 0o777 = 0o640) ∧
    load_or_init_session_key
        { file_exists := true, contents := List.replicate 31 7, mode := 0o640,
          umask := 0 } [] =
      .error (invalidKeyLengthMsg 31) ∧
    (List.replicate 32 8).length = 32 := by
  refine ⟨⟨by rfl, ?_⟩, ?_, ?_⟩
  · exact (C8_session_key_guarantees.1
      { file_exists := false, contents := [], mode := 0, umask := 0o027 }
      (List.replicate 32 8) (List.replicate 32 8)
      { file_exists := true, contents := List.replicate 32 8, mode := 0o640,
        umask := 0o027 } rfl (by rfl)).1
  · have h := (C8_session_key_guarantees.2.1
      { file_exists := true, contents := List.replicate 31 7, mode := 0o640,
        umask := 0 } [] rfl).2 (by decide)
    simpa using h
  · exact ((C8_session_key_guarantees.2.2
      { file_exists := false, contents := [], mode := 0, umask := 0o027 }
      (List.replicate 32 8) (List.replicate 32 8)
      { file_exists := true, contents := List.replicate 32 8, mode := 0o640,
        umask := 0o027 } (by decide) (by rfl)).1)

end Elspeth
